import Mathlib

/-!
Verification development for the reddit2telegram ingestion-and-delivery
pipeline.  The definitions below are a shallow embedding of the Python
sources (reddit_api.py, state.py, utils.py, main.py): JSON payloads are
modelled by `JVal`, Python exceptions by explicit `Except` results, and the
external collaborators (HTTP listing endpoint, media downloads, channel
sends) by oracle functions passed as arguments.  Dictionary access,
truthiness tests, `isinstance` checks and the evaluation of log-line
f-strings (which themselves index into the payload and can raise) follow
the source line by line.
-/

set_option maxRecDepth 8000

/-- Model of a Python JSON-like value as returned by response.json(). -/
inductive JVal where
  | jnull
  | jbool (b : Bool)
  | jint (n : Int)
  | jfloat (q : Rat)
  | jstr (s : String)
  | jarr (xs : List JVal)
  | jobj (kvs : List (String × JVal))

/-- Python exceptions that the embedded code can raise. -/
inductive PyErr where
  | keyError (k : String)
  | typeError
  | attributeError
deriving DecidableEq

/-- Lookup in a Python dict with string keys (keys are unique). -/
def jlookup (kvs : List (String × JVal)) (k : String) : Option JVal :=
  match kvs.find? (fun kv => kv.1 == k) with
  | some kv => some kv.2
  | none => none

/-- Python truthiness of a JSON value. -/
def JVal.truthy : JVal → Bool
  | .jnull => false
  | .jbool b => b
  | .jint n => n != 0
  | .jfloat q => q != 0
  | .jstr s => s != ""
  | .jarr xs => !xs.isEmpty
  | .jobj kvs => !kvs.isEmpty

/-- Truthiness of the result of dict.get(k): None (absent) is falsy. -/
def jTruthyOpt : Option JVal → Bool
  | some v => v.truthy
  | none => false

/-- Whether the first character list is a leading segment of the second. -/
def listStartsWith : List Char → List Char → Bool
  | [], _ => true
  | _ :: _, [] => false
  | a :: as, b :: bs => a == b && listStartsWith as bs

/-- Whether the first character list occurs contiguously in the second. -/
def listInfix (needle : List Char) : List Char → Bool
  | [] => needle.isEmpty
  | c :: rest => listStartsWith needle (c :: rest) || listInfix needle rest

/-- Python `k in v` for a string k: key membership for dicts, element
membership for lists, substring test for strings, TypeError otherwise. -/
def pyContains (v : JVal) (k : String) : Except PyErr Bool :=
  match v with
  | .jobj kvs => .ok (kvs.any (fun kv => kv.1 == k))
  | .jarr xs => .ok (xs.any (fun x => match x with | .jstr s => s == k | _ => false))
  | .jstr s => .ok (listInfix k.toList s.toList)
  | _ => .error .typeError

/-- Python `v[k]` for a string key k: dict lookup raising KeyError when the
key is missing; TypeError on any non-dict (list and string subscripts
require integer indices). -/
def jIndex (v : JVal) (k : String) : Except PyErr JVal :=
  match v with
  | .jobj kvs =>
    match jlookup kvs k with
    | some x => .ok x
    | none => .error (.keyError k)
  | _ => .error .typeError

/-- Python `d[key]` on a dict whose keys are strings, with an arbitrary
key value: lists and dicts are unhashable (TypeError); other non-string
hashable values miss every string key (KeyError, carrying a rendering of
the key). -/
def pyDictSub (kvs : List (String × JVal)) (key : JVal) : Except PyErr JVal :=
  match key with
  | .jstr s =>
    match jlookup kvs s with
    | some x => .ok x
    | none => .error (.keyError s)
  | .jarr _ => .error .typeError
  | .jobj _ => .error .typeError
  | .jint n => .error (.keyError (toString n))
  | .jbool b => .error (.keyError (toString b))
  | .jnull => .error (.keyError "None")
  | .jfloat _ => .error (.keyError "float-key")

/-- isinstance(v, dict). -/
def JVal.isDict : JVal → Bool
  | .jobj _ => true
  | _ => false

/-- isinstance(v, list). -/
def JVal.isList : JVal → Bool
  | .jarr _ => true
  | _ => false

/-- isinstance(v, str). -/
def JVal.isStr : JVal → Bool
  | .jstr _ => true
  | _ => false

/-- isinstance(v, int); Python bool is a subclass of int. -/
def JVal.isInt : JVal → Bool
  | .jint _ => true
  | .jbool _ => true
  | _ => false

/-- isinstance(v, (int, float)). -/
def JVal.isIntOrFloat : JVal → Bool
  | .jint _ => true
  | .jbool _ => true
  | .jfloat _ => true
  | _ => false

/-- Media item extracted by reddit_api.py: RedditPostMediaImage or
RedditPostMediaVideo.  The video width, height and duration are stored as
the raw payload values (Python does not coerce them). -/
inductive Media where
  | image (url : String)
  | video (url : String) (width : JVal) (height : JVal) (duration : JVal)

/-- RedditPost from reddit_api.py.  The id, fullname, subreddit and title
fields receive whatever payload values the dict lookups return. -/
structure RedditApiPost where
  id : JVal
  fullname : JVal
  subreddit : JVal
  title : JVal
  media : List Media

/-- Per-item skip in the gallery loop: the log line interpolates
post["id"], which raises KeyError when absent; otherwise the item is
silently dropped. -/
def gallerySkipItem (kvs : List (String × JVal)) : Except PyErr (Option Media) :=
  match jlookup kvs "id" with
  | none => .error (.keyError "id")
  | some _ => .ok none

/-- Tail of the gallery item validation, operating on the resolved
metadata entry: the chain
s not-in metadata / metadata[s] not a dict / u not-in metadata[s] /
metadata[s][u] not a str / empty string, evaluated left to right with
short circuiting, skips the item; a TypeError from a membership test or a
subscript on a non-dict metadata propagates. -/
def galleryMeta (kvs : List (String × JVal)) (metadata : JVal) : Except PyErr (Option Media) :=
  match pyContains metadata "s" with
  | .error e => .error e
  | .ok false => gallerySkipItem kvs
  | .ok true =>
    match jIndex metadata "s" with
    | .error e => .error e
    | .ok sv =>
      match sv with
      | .jobj skvs =>
        match jlookup skvs "u" with
        | none => gallerySkipItem kvs
        | some u =>
          match u with
          | .jstr us => if us == "" then gallerySkipItem kvs else .ok (some (.image us))
          | _ => gallerySkipItem kvs
      | _ => gallerySkipItem kvs

/-- One iteration of `for item in post["gallery_data"]["items"]` from
reddit_api.py: items without a media_id key are skipped (after the log
line reads post["id"]); otherwise the metadata side-table is subscripted
with the media_id value, which raises KeyError when the reference cannot
be resolved. -/
def galleryItem (kvs : List (String × JVal)) (mmkvs : List (String × JVal)) (item : JVal) :
    Except PyErr (Option Media) :=
  match pyContains item "media_id" with
  | .error e => .error e
  | .ok false => gallerySkipItem kvs
  | .ok true =>
    match jIndex item "media_id" with
    | .error e => .error e
    | .ok mid =>
      match pyDictSub mmkvs mid with
      | .error e => .error e
      | .ok metadata => galleryMeta kvs metadata

/-- The gallery item loop, accumulating the surviving items in order. -/
def galleryLoop (kvs mmkvs : List (String × JVal)) : List JVal → Except PyErr (List Media)
  | [] => .ok []
  | item :: rest =>
    match galleryItem kvs mmkvs item with
    | .error e => .error e
    | .ok none => galleryLoop kvs mmkvs rest
    | .ok (some m) =>
      match galleryLoop kvs mmkvs rest with
      | .error e => .error e
      | .ok ms => .ok (m :: ms)

/-- Skip taken when a declared structural field of the gallery is
malformed: the log line interpolates post["id"] and post[field] before the
continue, so a missing id or a missing field raises KeyError instead of
skipping. -/
def galleryBadField (kvs : List (String × JVal)) (field : String) :
    Except PyErr (Option (List Media)) :=
  match jlookup kvs "id" with
  | none => .error (.keyError "id")
  | some _ =>
    match jlookup kvs field with
    | none => .error (.keyError field)
    | some _ => .ok none

/-- The gallery branch of the extraction (reddit_api.py lines 210-235):
structural validation of gallery_data / gallery_data.items /
media_metadata followed by the item loop.  Returns none when the whole
post is skipped. -/
def extractGallery (kvs : List (String × JVal)) : Except PyErr (Option (List Media)) :=
  match jlookup kvs "gallery_data" with
  | none => galleryBadField kvs "gallery_data"
  | some gd =>
    match gd with
    | .jobj gkvs =>
      match jlookup gkvs "items" with
      | none => galleryBadField kvs "gallery_data"
      | some items =>
        match items with
        | .jarr itemsL =>
          match jlookup kvs "media_metadata" with
          | none => galleryBadField kvs "media_metadata"
          | some mm =>
            match mm with
            | .jobj mmkvs =>
              match galleryLoop kvs mmkvs itemsL with
              | .error e => .error e
              | .ok ms => .ok (some ms)
            | _ => galleryBadField kvs "media_metadata"
        | _ => galleryBadField kvs "gallery_data"
    | _ => galleryBadField kvs "gallery_data"

/-- Skip taken when the native-video checks fail: the log line
interpolates post["id"] and post["media"] first. -/
def videoBadField (kvs : List (String × JVal)) : Except PyErr (Option (List Media)) :=
  match jlookup kvs "id" with
  | none => .error (.keyError "id")
  | some _ =>
    match jlookup kvs "media" with
    | none => .error (.keyError "media")
    | some _ => .ok none

/-- The native-video branch (reddit_api.py lines 236-261): requires
media.reddit_video to be a dict holding a string fallback_url, int width,
int height and int-or-float duration, else the post is skipped. -/
def extractVideo (kvs : List (String × JVal)) : Except PyErr (Option (List Media)) :=
  match jlookup kvs "media" with
  | none => videoBadField kvs
  | some mv =>
    match mv with
    | .jobj mkvs =>
      match jlookup mkvs "reddit_video" with
      | none => videoBadField kvs
      | some rv =>
        match rv with
        | .jobj rvkvs =>
          match jlookup rvkvs "fallback_url" with
          | none => videoBadField kvs
          | some fu =>
            match fu with
            | .jstr fus =>
              match jlookup rvkvs "width" with
              | none => videoBadField kvs
              | some w =>
                if !w.isInt then videoBadField kvs
                else
                  match jlookup rvkvs "height" with
                  | none => videoBadField kvs
                  | some hgt =>
                    if !hgt.isInt then videoBadField kvs
                    else
                      match jlookup rvkvs "duration" with
                      | none => videoBadField kvs
                      | some dur =>
                        if !dur.isIntOrFloat then videoBadField kvs
                        else .ok (some [.video fus w hgt dur])
            | _ => videoBadField kvs
        | _ => videoBadField kvs
    | _ => videoBadField kvs

/-- Skip taken when the preview checks fail: the log line interpolates
post["id"] (post["preview"] is present, the branch was entered through a
truthy get). -/
def previewSkip (kvs : List (String × JVal)) : Except PyErr (Option (List Media)) :=
  match jlookup kvs "id" with
  | none => .error (.keyError "id")
  | some _ => .ok none

/-- The preview branch (reddit_api.py lines 262-276): requires the full
nested path preview.images[0].source.url to exist with a non-empty string
url, else the post is skipped. -/
def extractPreview (kvs : List (String × JVal)) (pv : JVal) :
    Except PyErr (Option (List Media)) :=
  match pv with
  | .jobj pvkvs =>
    match jlookup pvkvs "images" with
    | none => previewSkip kvs
    | some imgs =>
      match imgs with
      | .jarr [] => previewSkip kvs
      | .jarr (img0 :: _) =>
        match img0 with
        | .jobj ikvs =>
          match jlookup ikvs "source" with
          | none => previewSkip kvs
          | some src =>
            match src with
            | .jobj skvs =>
              match jlookup skvs "url" with
              | none => previewSkip kvs
              | some u =>
                match u with
                | .jstr us => if us == "" then previewSkip kvs else .ok (some [.image us])
                | _ => previewSkip kvs
            | _ => previewSkip kvs
        | _ => previewSkip kvs
      | _ => previewSkip kvs
  | _ => previewSkip kvs

/-- The three-way source-shape dispatch on the data dict of one post:
gallery first, then native video, then preview; no match leaves the media
list empty. -/
def extractMedia (kvs : List (String × JVal)) : Except PyErr (Option (List Media)) :=
  if jTruthyOpt (jlookup kvs "is_gallery") then extractGallery kvs
  else if jTruthyOpt (jlookup kvs "is_video") then extractVideo kvs
  else
    match jlookup kvs "preview" with
    | some pv => if pv.truthy then extractPreview kvs pv else .ok (some [])
    | none => .ok (some [])

/-- Final acceptance (reddit_api.py lines 278-288): a media sequence that
is empty or longer than 10 skips the post (the log line reads post["id"]);
otherwise the RedditPost is constructed from the id, name, subreddit and
title fields, each lookup raising KeyError when absent. -/
def acceptPost (kvs : List (String × JVal)) (media : List Media) :
    Except PyErr (Option RedditApiPost) :=
  if media.length = 0 ∨ media.length > 10 then
    match jlookup kvs "id" with
    | none => .error (.keyError "id")
    | some _ => .ok none
  else
    match jlookup kvs "id" with
    | none => .error (.keyError "id")
    | some idv =>
      match jlookup kvs "name" with
      | none => .error (.keyError "name")
      | some namev =>
        match jlookup kvs "subreddit" with
        | none => .error (.keyError "subreddit")
        | some srv =>
          match jlookup kvs "title" with
          | none => .error (.keyError "title")
          | some titlev => .ok (some ⟨idv, namev, srv, titlev, media⟩)

/-- One iteration of `for post in reversed(posts)`: filters on
kind == "t3", unwraps the data dict (a non-dict data value makes the
subsequent .get raise AttributeError), extracts the media and applies the
acceptance rule.  Returns none when the post is skipped. -/
def extractPost (w : JVal) : Except PyErr (Option RedditApiPost) :=
  match jIndex w "kind" with
  | .error e => .error e
  | .ok kind =>
    match kind with
    | .jstr s =>
      if s != "t3" then .ok none
      else
        match jIndex w "data" with
        | .error e => .error e
        | .ok post =>
          match post with
          | .jobj kvs =>
            match extractMedia kvs with
            | .error e => .error e
            | .ok none => .ok none
            | .ok (some media) => acceptPost kvs media
          | _ => .error .attributeError
    | _ => .ok none

/-- The accumulation loop over the (already reversed) page. -/
def processLoop : List JVal → Except PyErr (List RedditApiPost)
  | [] => .ok []
  | w :: rest =>
    match extractPost w with
    | .error e => .error e
    | .ok none => processLoop rest
    | .ok (some p) =>
      match processLoop rest with
      | .error e => .error e
      | .ok ps => .ok (p :: ps)

/-- Processing of one raw page: the API returns the children newest-first
and the loop walks them reversed (oldest first). -/
def getUpvotedFromChildren (children : List JVal) : Except PyErr (List RedditApiPost) :=
  processLoop children.reverse

/-- RedditClient.get_upvoted: the HTTP listing call is the oracle
`listing`, taking the before-cursor and limit parameters the code places
in the query; a non-200 response or malformed top-level JSON is an error
from the oracle.  The body must hold data.children as a list (iterating
reversed over anything else is modelled as a TypeError). -/
def getUpvoted (listing : Option String → Nat → Except PyErr JVal)
    (last_known_id : Option String) (limit : Nat) : Except PyErr (List RedditApiPost) :=
  match listing last_known_id limit with
  | .error e => .error e
  | .ok body =>
    match jIndex body "data" with
    | .error e => .error e
    | .ok dv =>
      match jIndex dv "children" with
      | .error e => .error e
      | .ok cv =>
        match cv with
        | .jarr children => getUpvotedFromChildren children
        | _ => .error .typeError

/-- Python equality between a string and an arbitrary payload value. -/
def pyEqStrJ (c : String) (v : JVal) : Bool :=
  match v with
  | .jstr s => c == s
  | _ => false

/-- RedditClient.refetch_upvoted_maybe: fetch with no before-cursor and
limit 1; return None when nothing came back or the newest fullname equals
the last known id, the post otherwise. -/
def refetchUpvotedMaybe (listing : Option String → Nat → Except PyErr JVal)
    (last_known_id : String) : Except PyErr (Option RedditApiPost) :=
  match getUpvoted listing none 1 with
  | .error e => .error e
  | .ok [] => .ok none
  | .ok (p :: _) => if pyEqStrJ last_known_id p.fullname then .ok none else .ok (some p)

/-- Values a shelve record of state.py holds: the version int and the
three optional-string credential and cursor fields. -/
inductive DBVal where
  | vInt (n : Int)
  | vNone
  | vStr (s : String)
deriving DecidableEq

/-- The shelve store: a string-keyed map with unique keys. -/
def DB : Type := List (String × DBVal)

/-- db.get / db[k] lookup. -/
def dbGet (db : DB) (k : String) : Option DBVal :=
  match db.find? (fun kv => kv.1 == k) with
  | some kv => some kv.2
  | none => none

/-- The State record of state.py.  Python does not enforce the field
annotations, so the fields hold whatever the store held. -/
structure StateR where
  reddit_last_seen_id : DBVal
  access_token : DBVal
  refresh_token : DBVal
deriving DecidableEq

/-- Outcomes of a failed State.load. -/
inductive LoadErr where
  | valueError
  | loadKeyError (k : String)
  | loadTypeError
deriving DecidableEq

/-- The current on-disk version written by State.dump. -/
def stateVersion : Int := 1

/-- The field-reading part of State.load: the three db subscripts made
once the version test passed, each raising KeyError when absent. -/
def stateReadFields (db : DB) : Except LoadErr StateR :=
  match dbGet db "reddit_last_seen_id" with
  | none => .error (.loadKeyError "reddit_last_seen_id")
  | some a =>
    match dbGet db "access_token" with
    | none => .error (.loadKeyError "access_token")
    | some b =>
      match dbGet db "refresh_token" with
      | none => .error (.loadKeyError "refresh_token")
      | some c => .ok ⟨a, b, c⟩

/-- State.load (state.py lines 16-23): read _version with default 0; any
int version >= 1 loads the fields; an int version < 1 falls through to the
ValueError; a non-int version makes the >= comparison raise TypeError. -/
def stateLoad (db : DB) : Except LoadErr StateR :=
  match (dbGet db "_version").getD (.vInt 0) with
  | .vInt n => if 1 ≤ n then stateReadFields db else .error .valueError
  | _ => .error .loadTypeError

/-- State.dump (state.py lines 25-31): clear the store, then write the
version and the three fields. -/
def stateDump (s : StateR) (_db : DB) : DB :=
  [("_version", .vInt stateVersion),
   ("reddit_last_seen_id", s.reddit_last_seen_id),
   ("access_token", s.access_token),
   ("refresh_token", s.refresh_token)]

/-- Token cache of RedditClient relevant to _get_access_token. -/
structure TokenState where
  access_token : Option String
  refresh_token : Option String
  expires_at : Int
deriving DecidableEq

/-- The refresh-token exchange response the network would return if the
call were made. -/
structure HttpTokenResp where
  status : Int
  resp_access_token : String
  resp_refresh_token : String
  expires_in : Int
deriving DecidableEq

/-- RedditClient._get_access_token (reddit_api.py lines 133-158): serve
the cached token unless it is absent or now is past expires_at; otherwise
make exactly one refresh call, failing on a non-200 status and otherwise
storing the new pair with expires_at = (now - 1) + expires_in.  The second
component counts the network calls made. -/
def getAccessToken (c : TokenState) (now : Int) (resp : HttpTokenResp) :
    Except String (TokenState × Option String) × Nat :=
  if c.access_token = none ∨ now > c.expires_at then
    if resp.status ≠ 200 then (.error "Failed to get access token", 1)
    else
      let c2 : TokenState :=
        { access_token := some resp.resp_access_token,
          refresh_token := some resp.resp_refresh_token,
          expires_at := (now - 1) + resp.expires_in }
      (.ok (c2, c2.access_token), 1)
  else (.ok (c, c.access_token), 0)

/-- Outcome of one send attempt as seen by the flood_wait wrapper: either
the wrapped coroutine returns, or it raises FloodWait carrying a wait
duration in seconds. -/
inductive FloodStep (α : Type) where
  | ok (a : α)
  | floodWait (seconds : Nat)

/-- The retry loop of utils.flood_wait / main._flood_wait, with the
attempt counter i and the remaining-iterations fuel (attempts - i) of the
range(attempts) loop: a FloodWait on the last attempt is re-raised, any
earlier one sleeps seconds + 1 and retries.  Returns the result paired
with the list of sleeps performed; falling off the loop returns None. -/
def floodGo {α : Type} (op : Nat → FloodStep α) (attempts : Nat) :
    Nat → Nat → Except Nat (Option α) × List Nat
  | _, 0 => (.ok none, [])
  | i, rem + 1 =>
    match op i with
    | .ok a => (.ok (some a), [])
    | .floodWait v =>
      if i = attempts - 1 then (.error v, [])
      else
        let r := floodGo op attempts (i + 1) rem
        (r.1, (v + 1) :: r.2)

/-- flood_wait(func): attempts = 5, loop from i = 0. -/
def floodWaitRun {α : Type} (op : Nat → FloodStep α) : Except Nat (Option α) × List Nat :=
  floodGo op 5 0 5

/-- RedditPost of main.py: preview or gallery image urls only. -/
structure MainPost where
  id : JVal
  fullname : JVal
  subreddit : JVal
  title : JVal
  images : List String

/-- Exceptions escaping the delivery of one post in the main loop. -/
inductive DeliverErr where
  | downloadErr
  | flood (seconds : Nat)
deriving DecidableEq

/-- External effects of one cycle of the main loop: the streamed download
of one image (by index and url) and the attempt-indexed outcomes of
bot.send_photo and bot.send_media_group for a given post. -/
structure CycleEff where
  download : MainPost → Nat → String → Except Unit Unit
  sendPhoto : MainPost → Nat → FloodStep Unit
  sendGroup : MainPost → Nat → FloodStep Unit

/-- Sequential download of every image of a post (main.py lines 291-303):
the first failing chunked GET raises and aborts the post. -/
def downloadAll (dl : Nat → String → Except Unit Unit) : List (Nat × String) → Except Unit Unit
  | [] => .ok ()
  | (i, u) :: rest =>
    match dl i u with
    | .error e => .error e
    | .ok _ => downloadAll dl rest

/-- Delivery of one post (main.py lines 291-324): download all images,
then send a single photo or a media group through the flood_wait retry
wrapper; a FloodWait surviving the retry budget escapes. -/
def deliverPost (eff : CycleEff) (p : MainPost) : Except DeliverErr Unit :=
  match downloadAll (eff.download p) p.images.enum with
  | .error _ => .error .downloadErr
  | .ok _ =>
    if p.images.length = 1 then
      match (floodWaitRun (eff.sendPhoto p)).1 with
      | .error v => .error (.flood v)
      | .ok _ => .ok ()
    else if p.images.length > 1 then
      match (floodWaitRun (eff.sendGroup p)).1 with
      | .error v => .error (.flood v)
      | .ok _ => .ok ()
    else .ok ()

/-- The in-loop re-check `not post.images or len(post.images) > 10`
(main.py line 285). -/
def loopSkip (p : MainPost) : Bool :=
  p.images.isEmpty || p.images.length > 10

/-- The for-post loop of one cycle (main.py lines 282-324): returns the
posts delivered, and the exception at which the loop was torn down, if
any.  Nothing in the loop catches a delivery failure, so the first one
aborts the remaining posts. -/
def postsLoop (eff : CycleEff) : List MainPost → List MainPost × Option DeliverErr
  | [] => ([], none)
  | p :: rest =>
    if loopSkip p then postsLoop eff rest
    else
      match deliverPost eff p with
      | .error e => ([], some e)
      | .ok _ =>
        let r := postsLoop eff rest
        (p :: r.1, r.2)

/-- Observable outcome of one cycle of the while-True loop. -/
structure CycleOutcome where
  delivered : List MainPost
  escaped : Option DeliverErr
  pollFailureReported : Bool
  cursor : Option JVal

/-- One cycle of the run loop (main.py lines 273-332): a poll failure is
caught, reported to the log chat and ends the cycle with the cursor
untouched; otherwise the post loop runs, and only when no exception
escaped it does the cursor advance to the fullname of the last fetched
post (staying put on an empty fetch).  An escaping delivery exception is
not caught anywhere in main, so the cursor line is never reached. -/
def runCycle (eff : CycleEff) (fetch : Except Unit (List MainPost)) (cursor : Option JVal) :
    CycleOutcome :=
  match fetch with
  | .error _ => ⟨[], none, true, cursor⟩
  | .ok posts =>
    match postsLoop eff posts with
    | (delivered, some e) => ⟨delivered, some e, false, cursor⟩
    | (delivered, none) =>
      ⟨delivered, none, false,
        match posts.getLast? with
        | some p => some p.fullname
        | none => cursor⟩

/-- The eligible-post projection of one raw page element: the extracted
post when the element survives, none when it is skipped or would raise. -/
def extractedOf (w : JVal) : Option RedditApiPost :=
  match extractPost w with
  | .ok r => r
  | .error _ => none

/-- Gallery payload whose middle item references a media_id that the
media_metadata side-table does not hold. -/
def c1PageBad : List JVal :=
  [JVal.jobj [("kind", .jstr "t3"),
    ("data", .jobj [
      ("id", .jstr "g1"),
      ("name", .jstr "t3_g1"),
      ("subreddit", .jstr "pics"),
      ("title", .jstr "gallery"),
      ("is_gallery", .jbool true),
      ("gallery_data", .jobj [("items", .jarr [
          .jobj [("media_id", .jstr "a")],
          .jobj [("media_id", .jstr "b")],
          .jobj [("media_id", .jstr "c")]])]),
      ("media_metadata", .jobj [
          ("a", .jobj [("s", .jobj [("u", .jstr "https://i.redd.it/a.jpg")])]),
          ("c", .jobj [("s", .jobj [("u", .jstr "https://i.redd.it/c.jpg")])])])])]]

/-- Same gallery except the middle reference resolves to a metadata entry
without a usable url (its s field is missing). -/
def c1PageMeta : List JVal :=
  [JVal.jobj [("kind", .jstr "t3"),
    ("data", .jobj [
      ("id", .jstr "g1"),
      ("name", .jstr "t3_g1"),
      ("subreddit", .jstr "pics"),
      ("title", .jstr "gallery"),
      ("is_gallery", .jbool true),
      ("gallery_data", .jobj [("items", .jarr [
          .jobj [("media_id", .jstr "a")],
          .jobj [("media_id", .jstr "b")],
          .jobj [("media_id", .jstr "c")]])]),
      ("media_metadata", .jobj [
          ("a", .jobj [("s", .jobj [("u", .jstr "https://i.redd.it/a.jpg")])]),
          ("b", .jobj [("x", .jnull)]),
          ("c", .jobj [("s", .jobj [("u", .jstr "https://i.redd.it/c.jpg")])])])])]]

/-- Listing oracle serving the page with the unresolvable reference. -/
def c1ListingBad : Option String → Nat → Except PyErr JVal :=
  fun _ _ => .ok (.jobj [("data", .jobj [("children", .jarr c1PageBad)])])

/-- Listing oracle serving the page with the unusable metadata entry. -/
def c1ListingMeta : Option String → Nat → Except PyErr JVal :=
  fun _ _ => .ok (.jobj [("data", .jobj [("children", .jarr c1PageMeta)])])

/-- C1: a gallery item whose media_id is present but absent from the
media_metadata side-table raises KeyError, aborting the extraction of the
post and of the whole page, instead of being skipped; an item whose
resolved metadata merely lacks a usable url is skipped and the remaining
items survive in their original relative order. -/
theorem gallery_unresolved_reference_raises :
    getUpvoted c1ListingBad none 100 = .error (.keyError "b")
    ∧ getUpvoted c1ListingMeta none 100 =
        .ok [⟨.jstr "g1", .jstr "t3_g1", .jstr "pics", .jstr "gallery",
              [.image "https://i.redd.it/a.jpg", .image "https://i.redd.it/c.jpg"]⟩] :=
  ⟨rfl, rfl⟩

/-- C10: dumping a State to the store and loading it back yields the same
three persisted fields, for every State and prior store content. -/
theorem state_dump_load_roundtrip (s : StateR) (db : DB) :
    stateLoad (stateDump s db) = .ok s := by
  cases s
  rfl

/-- Store written with the unknown version 2 and the three fields. -/
def c3db : DB :=
  [("_version", .vInt 2),
   ("reddit_last_seen_id", .vStr "t3_x"),
   ("access_token", .vStr "acc"),
   ("refresh_token", .vStr "ref")]

/-- C3 counterexample: a persisted record carrying the unknown version 2
is loaded successfully, though the claim requires every version other than
1 to fail the load. -/
theorem state_load_accepts_unknown_version :
    stateLoad c3db = .ok ⟨.vStr "t3_x", .vStr "acc", .vStr "ref"⟩ := rfl

/-- C3 (amended): State.load fails when the version field is absent
(defaulted to 0) or is an int below 1, and raises TypeError on a non-int
version; every int version at least 1 — the current version 1 and any
unknown later version alike — passes the gate and the fields are read. -/
theorem state_load_version_gate (db : DB) :
    (dbGet db "_version" = none → stateLoad db = .error .valueError)
    ∧ (∀ n : Int, dbGet db "_version" = some (.vInt n) → n < 1 →
        stateLoad db = .error .valueError)
    ∧ (∀ n : Int, dbGet db "_version" = some (.vInt n) → 1 ≤ n →
        stateLoad db = stateReadFields db)
    ∧ (∀ s : String, dbGet db "_version" = some (.vStr s) →
        stateLoad db = .error .loadTypeError)
    ∧ (dbGet db "_version" = some .vNone → stateLoad db = .error .loadTypeError) := by
  refine ⟨?_, ?_, ?_, ?_, ?_⟩
  · intro h
    simp [stateLoad, h]
  · intro n h hn
    simp [stateLoad, h]
    omega
  · intro n h hn
    simp [stateLoad, h]
    intro hc
    omega
  · intro s h
    simp [stateLoad, h]
  · intro h
    simp [stateLoad, h]

/-- Witness for the amended C3 statement at a store holding version 0. -/
theorem state_load_version_gate_witness :
    stateLoad [("_version", DBVal.vInt 0)] = .error .valueError :=
  (state_load_version_gate [("_version", DBVal.vInt 0)]).2.1 0 rfl (by norm_num)

/-- Cached token pair expiring exactly now. -/
def c7State : TokenState := ⟨some "tok", some "ref", 100⟩

/-- A refresh response that would fail if the call were made. -/
def c7Resp : HttpTokenResp := ⟨500, "new", "newref", 3600⟩

/-- C7 counterexample: with a cached token and now equal to expires_at the
cached token is served and no network call is made, though the claim
requires a refresh exchange in every case with now at or past expiry (here
the refresh would fail with status 500). -/
theorem token_cache_served_at_expiry_boundary :
    getAccessToken c7State 100 c7Resp = (.ok (c7State, some "tok"), 0) := rfl

/-- C7 (amended): the cached access token is returned with no network
call whenever it is present and now is at most expires_at (the refresh
fires only strictly past expiry); when the token is absent or now is past
expires_at, exactly one refresh call is made, failing on a non-200 status
with no internal retry and otherwise installing and returning the new
token with expiry (now - 1) + expires_in. -/
theorem token_refresh_spec (c : TokenState) (now : Int) (resp : HttpTokenResp) :
    (c.access_token ≠ none → now ≤ c.expires_at →
      getAccessToken c now resp = (.ok (c, c.access_token), 0))
    ∧ (c.access_token = none ∨ now > c.expires_at →
        (resp.status = 200 →
          getAccessToken c now resp =
            (.ok (⟨some resp.resp_access_token, some resp.resp_refresh_token,
                   (now - 1) + resp.expires_in⟩,
                  some resp.resp_access_token), 1))
        ∧ (resp.status ≠ 200 →
          getAccessToken c now resp = (.error "Failed to get access token", 1))) := by
  constructor
  · intro hne hle
    have hcond : ¬(c.access_token = none ∨ now > c.expires_at) := by
      rintro (h | h)
      · exact hne h
      · omega
    simp [getAccessToken, hcond]
  · intro hcond
    constructor
    · intro hst
      simp [getAccessToken, hcond, hst]
    · intro hst
      simp [getAccessToken, hcond, hst]

/-- Witness for the amended C7 statement: a fresh cached token is served
without a refresh. -/
theorem token_refresh_spec_witness :
    getAccessToken ⟨some "t", some "r", 100⟩ 99 ⟨200, "n", "nr", 10⟩ =
      (.ok (⟨some "t", some "r", 100⟩, some "t"), 0) :=
  (token_refresh_spec ⟨some "t", some "r", 100⟩ 99 ⟨200, "n", "nr", 10⟩).1
    (Option.some_ne_none "t") (by norm_num)

/-- C8: the flood_wait wrapper makes at most 5 attempts (its outcome
depends only on the first five attempt results); an operation raising a
rate-limit signal on all five attempts propagates the last error after
sleeping wait + 1 seconds on each of the first four; one raising it four
times and then succeeding returns the successful result after the same
four sleeps. -/
theorem flood_wait_bounded_retry (f : Nat → Nat) (x : Nat)
    (op op2 : Nat → FloodStep Nat)
    (hagree : ∀ i, i < 5 → op i = op2 i) :
    floodWaitRun op = floodWaitRun op2
    ∧ floodWaitRun (fun i => (FloodStep.floodWait (f i) : FloodStep Nat)) =
        (.error (f 4), [f 0 + 1, f 1 + 1, f 2 + 1, f 3 + 1])
    ∧ floodWaitRun (fun i => if i < 4 then FloodStep.floodWait (f i) else .ok x) =
        (.ok (some x), [f 0 + 1, f 1 + 1, f 2 + 1, f 3 + 1]) := by
  have h0 := hagree 0 (by norm_num)
  have h1 := hagree 1 (by norm_num)
  have h2 := hagree 2 (by norm_num)
  have h3 := hagree 3 (by norm_num)
  have h4 := hagree 4 (by norm_num)
  refine ⟨?_, rfl, rfl⟩
  simp [floodWaitRun, floodGo, h0, h1, h2, h3, h4]

/-- Send attempts that always succeed immediately. -/
def c8opOk : Nat → FloodStep Nat := fun i => .ok i

/-- Send attempts that agree with c8opOk on the first five indices only. -/
def c8opTail : Nat → FloodStep Nat := fun i => if i < 5 then .ok i else .floodWait 3

/-- Witness for the C8 statement at concrete operations and waits. -/
theorem flood_wait_bounded_retry_witness :
    floodWaitRun c8opOk = floodWaitRun c8opTail
    ∧ floodWaitRun (fun i => (FloodStep.floodWait (2 * i) : FloodStep Nat)) =
        (.error 8, [1, 3, 5, 7])
    ∧ floodWaitRun (fun i => if i < 4 then FloodStep.floodWait (2 * i) else .ok 7) =
        (.ok (some 7), [1, 3, 5, 7]) :=
  flood_wait_bounded_retry (fun i => 2 * i) 7 c8opOk c8opTail
    (fun i h => by simp [c8opOk, c8opTail, h])

/-- An accepted post satisfies the length gate and carries exactly the
extracted media. -/
theorem acceptPost_ok_some {kvs : List (String × JVal)} {media : List Media}
    {p : RedditApiPost} (h : acceptPost kvs media = .ok (some p)) :
    p.media = media ∧ 1 ≤ media.length ∧ media.length ≤ 10 := by
  unfold acceptPost at h
  split at h
  · split at h <;> simp_all
  · rename_i hc
    split at h
    · simp_all
    · split at h
      · simp_all
      · split at h
        · simp_all
        · split at h
          · simp_all
          · simp only [Except.ok.injEq, Option.some.injEq] at h
            subst h
            refine ⟨rfl, ?_, ?_⟩ <;> omega

/-- A post surviving one loop iteration went through the acceptance
gate. -/
theorem extractPost_ok_some {w : JVal} {p : RedditApiPost}
    (h : extractPost w = .ok (some p)) :
    1 ≤ p.media.length ∧ p.media.length ≤ 10 := by
  unfold extractPost at h
  split at h
  · simp_all
  · split at h
    · split at h
      · simp_all
      · split at h
        · simp_all
        · split at h
          · rename_i kvs _ hmedia
            split at h
            · simp_all
            · simp_all
            · obtain ⟨hm, hlo, hhi⟩ := acceptPost_ok_some h
              rw [hm]
              exact ⟨hlo, hhi⟩
          · simp_all
    · simp_all

/-- Every post of a successful loop result stems from some page element
accepted by the per-post extraction. -/
theorem processLoop_mem {l : List JVal} {res : List RedditApiPost}
    (h : processLoop l = .ok res) :
    ∀ p ∈ res, ∃ w ∈ l, extractPost w = .ok (some p) := by
  induction l generalizing res with
  | nil =>
    unfold processLoop at h
    simp only [Except.ok.injEq] at h
    subst h
    simp
  | cons w rest ih =>
    unfold processLoop at h
    split at h
    · simp_all
    · intro p hp
      obtain ⟨w2, hw2, he⟩ := ih h p hp
      exact ⟨w2, by simp [hw2], he⟩
    · rename_i q hq
      split at h
      · simp_all
      · rename_i ps hps
        simp only [Except.ok.injEq] at h
        subst h
        intro p hp
        rcases List.mem_cons.mp hp with hqp | hmem
        · subst hqp
          exact ⟨w, by simp, hq⟩
        · obtain ⟨w2, hw2, he⟩ := ih hps p hmem
          exact ⟨w2, by simp [hw2], he⟩

/-- A successful loop result is exactly the per-element projection of the
walked list, in order. -/
theorem processLoop_filterMap {l : List JVal} {res : List RedditApiPost}
    (h : processLoop l = .ok res) :
    res = l.filterMap extractedOf := by
  induction l generalizing res with
  | nil =>
    unfold processLoop at h
    simp only [Except.ok.injEq] at h
    subst h
    simp
  | cons w rest ih =>
    unfold processLoop at h
    split at h
    · simp_all
    · rename_i hw
      rw [List.filterMap_cons]
      have : extractedOf w = none := by simp [extractedOf, hw]
      rw [this]
      exact ih h
    · rename_i q hq
      split at h
      · simp_all
      · rename_i ps hps
        simp only [Except.ok.injEq] at h
        subst h
        rw [List.filterMap_cons]
        have : extractedOf w = some q := by simp [extractedOf, hq]
        rw [this]
        rw [ih hps]

/-- C4: every post of a successfully returned get_upvoted list carries
between 1 and 10 media items; a payload whose extracted media sequence is
empty or longer than 10 never enters the list. -/
theorem get_upvoted_media_bounds (listing : Option String → Nat → Except PyErr JVal)
    (cur : Option String) (lim : Nat) (res : List RedditApiPost)
    (h : getUpvoted listing cur lim = .ok res) :
    ∀ p ∈ res, 1 ≤ p.media.length ∧ p.media.length ≤ 10 := by
  unfold getUpvoted at h
  split at h
  · simp_all
  · split at h
    · simp_all
    · split at h
      · simp_all
      · split at h
        · rename_i children _
          unfold getUpvotedFromChildren at h
          intro p hp
          obtain ⟨w, _, he⟩ := processLoop_mem h p hp
          exact extractPost_ok_some he
        · simp_all

/-- Preview post used by the C4 witness page. -/
def c4Child : JVal :=
  .jobj [("kind", .jstr "t3"),
    ("data", .jobj [
      ("id", .jstr "p1"),
      ("name", .jstr "t3_p1"),
      ("subreddit", .jstr "pics"),
      ("title", .jstr "preview"),
      ("preview", .jobj [("images", .jarr [
          .jobj [("source", .jobj [("url", .jstr "https://p.example/x.png")])]])])])]

/-- Listing oracle for the C4 witness. -/
def c4Listing : Option String → Nat → Except PyErr JVal :=
  fun _ _ => .ok (.jobj [("data", .jobj [("children", .jarr [c4Child])])])

/-- The post c4Listing extracts. -/
def c4Post : RedditApiPost :=
  ⟨.jstr "p1", .jstr "t3_p1", .jstr "pics", .jstr "preview",
   [.image "https://p.example/x.png"]⟩

/-- Witness for C4 at a concrete one-post page. -/
theorem get_upvoted_media_bounds_witness :
    1 ≤ c4Post.media.length ∧ c4Post.media.length ≤ 10 :=
  get_upvoted_media_bounds c4Listing none 100 [c4Post] rfl c4Post (by simp)

/-- C5: when the listing call yields a page whose data.children list is
the raw (newest-first) page, a successful get_upvoted returns exactly the
eligible posts of the reversed page, in that reversed (oldest-first)
order. -/
theorem get_upvoted_reverse_order (listing : Option String → Nat → Except PyErr JVal)
    (cur : Option String) (lim : Nat) (body dv : JVal) (children : List JVal)
    (res : List RedditApiPost)
    (h1 : listing cur lim = .ok body)
    (h2 : jIndex body "data" = .ok dv)
    (h3 : jIndex dv "children" = .ok (.jarr children))
    (h4 : getUpvoted listing cur lim = .ok res) :
    res = children.reverse.filterMap extractedOf := by
  unfold getUpvoted at h4
  rw [h1] at h4
  simp only [h2, h3] at h4
  unfold getUpvotedFromChildren at h4
  exact processLoop_filterMap h4

/-- Older preview post of the C5 witness page. -/
def c5ChildA : JVal :=
  .jobj [("kind", .jstr "t3"),
    ("data", .jobj [
      ("id", .jstr "a1"),
      ("name", .jstr "t3_a1"),
      ("subreddit", .jstr "pics"),
      ("title", .jstr "older"),
      ("preview", .jobj [("images", .jarr [
          .jobj [("source", .jobj [("url", .jstr "https://p.example/a.png")])]])])])]

/-- Newer preview post of the C5 witness page. -/
def c5ChildB : JVal :=
  .jobj [("kind", .jstr "t3"),
    ("data", .jobj [
      ("id", .jstr "b1"),
      ("name", .jstr "t3_b1"),
      ("subreddit", .jstr "pics"),
      ("title", .jstr "newer"),
      ("preview", .jobj [("images", .jarr [
          .jobj [("source", .jobj [("url", .jstr "https://p.example/b.png")])]])])])]

/-- The C5 witness page, newest-first as the API returns it, with an
ineligible element between the two posts. -/
def c5Children : List JVal :=
  [c5ChildB, .jobj [("kind", .jstr "t1"), ("data", .jobj [])], c5ChildA]

/-- Listing oracle for the C5 witness. -/
def c5Listing : Option String → Nat → Except PyErr JVal :=
  fun _ _ => .ok (.jobj [("data", .jobj [("children", .jarr c5Children)])])

/-- The posts extracted from c5Children, oldest first. -/
def c5PostA : RedditApiPost :=
  ⟨.jstr "a1", .jstr "t3_a1", .jstr "pics", .jstr "older",
   [.image "https://p.example/a.png"]⟩

/-- The newer extracted post of the C5 witness. -/
def c5PostB : RedditApiPost :=
  ⟨.jstr "b1", .jstr "t3_b1", .jstr "pics", .jstr "newer",
   [.image "https://p.example/b.png"]⟩

/-- Witness for C5 at a concrete newest-first page. -/
theorem get_upvoted_reverse_order_witness :
    [c5PostA, c5PostB] = c5Children.reverse.filterMap extractedOf :=
  get_upvoted_reverse_order c5Listing none 100
    (.jobj [("data", .jobj [("children", .jarr c5Children)])])
    (.jobj [("children", .jarr c5Children)]) c5Children
    [c5PostA, c5PostB] rfl rfl rfl rfl

/-- C9: the recovery probe queries the listing with no before filter and
limit 1, and its outcome depends on nothing else; it yields the fetched
post exactly when the fullname differs from the last known id, and nothing
when the fetch came back empty or the fullname matches. -/
theorem refetch_probe_spec (listing listing2 : Option String → Nat → Except PyErr JVal)
    (c : String)
    (hq : listing none 1 = listing2 none 1) :
    refetchUpvotedMaybe listing c = refetchUpvotedMaybe listing2 c
    ∧ (getUpvoted listing none 1 = .ok [] → refetchUpvotedMaybe listing c = .ok none)
    ∧ (∀ (p : RedditApiPost) (rest : List RedditApiPost),
        getUpvoted listing none 1 = .ok (p :: rest) →
        (pyEqStrJ c p.fullname = true → refetchUpvotedMaybe listing c = .ok none)
        ∧ (pyEqStrJ c p.fullname = false →
            refetchUpvotedMaybe listing c = .ok (some p))) := by
  have hgu : getUpvoted listing none 1 = getUpvoted listing2 none 1 := by
    unfold getUpvoted
    rw [hq]
  refine ⟨?_, ?_, ?_⟩
  · unfold refetchUpvotedMaybe
    rw [hgu]
  · intro h
    unfold refetchUpvotedMaybe
    rw [h]
  · intro p rest h
    constructor <;> intro hname <;> unfold refetchUpvotedMaybe <;> rw [h] <;> simp [hname]

/-- One-post page for the C9 witness, differing from the stored cursor. -/
def c9Listing : Option String → Nat → Except PyErr JVal :=
  fun _ _ => .ok (.jobj [("data", .jobj [("children", .jarr [
    .jobj [("kind", .jstr "t3"),
      ("data", .jobj [
        ("id", .jstr "n1"),
        ("name", .jstr "t3_new"),
        ("subreddit", .jstr "pics"),
        ("title", .jstr "probe"),
        ("preview", .jobj [("images", .jarr [
            .jobj [("source", .jobj [("url", .jstr "https://p.example/n.png")])]])])])]])])])

/-- The post the probe returns in the C9 witness. -/
def c9Post : RedditApiPost :=
  ⟨.jstr "n1", .jstr "t3_new", .jstr "pics", .jstr "probe",
   [.image "https://p.example/n.png"]⟩

/-- Witness for C9: the probe returns the newest post when its fullname
differs from the cursor. -/
theorem refetch_probe_spec_witness :
    refetchUpvotedMaybe c9Listing "t3_old" = .ok (some c9Post) :=
  ((refetch_probe_spec c9Listing c9Listing "t3_old" rfl).2.2 c9Post [] rfl).2 rfl

/-- C6: a cycle that completes without an escaping exception advances the
cursor to the fullname of the last fetched post, and leaves it unchanged
when the poll returned no posts. -/
theorem cycle_cursor_advance (eff : CycleEff) (posts : List MainPost)
    (cursor : Option JVal)
    (h : (runCycle eff (.ok posts) cursor).escaped = none) :
    (runCycle eff (.ok posts) cursor).cursor =
      match posts.getLast? with
      | some p => some p.fullname
      | none => cursor := by
  rcases hp : postsLoop eff posts with ⟨d, oe⟩
  cases oe with
  | none => simp [runCycle, hp]
  | some e =>
    have hesc : (runCycle eff (.ok posts) cursor).escaped = some e := by
      simp [runCycle, hp]
    rw [h] at hesc
    exact Option.noConfusion hesc

/-- Effects under which every download and send succeeds. -/
def c6Eff : CycleEff :=
  ⟨fun _ _ _ => .ok (), fun _ _ => .ok (), fun _ _ => .ok ()⟩

/-- Single fetched post of the C6 witness. -/
def c6Post : MainPost := ⟨.jstr "x", .jstr "t3_x", .jstr "s", .jstr "t", ["u"]⟩

/-- Witness for C6: after a clean one-post cycle the cursor is the posts
fullname. -/
theorem cycle_cursor_advance_witness :
    (runCycle c6Eff (.ok [c6Post]) none).cursor = some (JVal.jstr "t3_x") :=
  cycle_cursor_advance c6Eff [c6Post] none rfl

/-- Effects whose download of the second image (index 1) of any post
raises. -/
def c2Eff : CycleEff :=
  ⟨fun _ i _ => if i = 1 then .error () else .ok (),
   fun _ _ => .ok (), fun _ _ => .ok ()⟩

/-- Two-image post whose second download throws. -/
def c2PostA : MainPost := ⟨.jstr "a", .jstr "t3_a", .jstr "s", .jstr "one", ["ua", "ub"]⟩

/-- Subsequent single-image post that would deliver cleanly. -/
def c2PostB : MainPost := ⟨.jstr "b", .jstr "t3_b", .jstr "s", .jstr "two", ["uc"]⟩

/-- C2 counterexample: when the second download of the first fetched post
throws, the exception escapes the cycle uncaught (no report is sent from
the loop), the second post is never attempted, and the cursor stays at its
old value instead of advancing to the fullname of the last fetched
post. -/
theorem cycle_delivery_failure_escapes :
    runCycle c2Eff (.ok [c2PostA, c2PostB]) (some (.jstr "t3_old")) =
      ⟨[], some .downloadErr, false, some (.jstr "t3_old")⟩ := rfl

/-- The post loop tears down at the first delivery failure: the posts
before it are delivered, the ones after it are not reached. -/
theorem postsLoop_append_fail (eff : CycleEff) (l1 l2 : List MainPost)
    (p : MainPost) (e : DeliverErr)
    (h1 : ∀ q ∈ l1, loopSkip q = false ∧ deliverPost eff q = .ok ())
    (hp : loopSkip p = false) (hpe : deliverPost eff p = .error e) :
    postsLoop eff (l1 ++ p :: l2) = (l1, some e) := by
  revert h1
  induction l1 with
  | nil =>
    intro _
    simp [postsLoop, hp, hpe]
  | cons q qs ih =>
    intro h1
    have hq := h1 q (by simp)
    have hrest := ih (fun r hr => h1 r (by simp [hr]))
    simp [postsLoop, hq.1, hq.2, hrest]

/-- C2 (amended): nothing in the run loop catches a delivery failure;
when the posts before position k deliver and the post at k fails, the
exception escapes the cycle (terminating the process), the posts after k
are never attempted, no operator report is sent from the loop, and the
cursor does not advance. -/
theorem cycle_delivery_failure_aborts (eff : CycleEff) (cursor : Option JVal)
    (l1 l2 : List MainPost) (p : MainPost) (e : DeliverErr)
    (h1 : ∀ q ∈ l1, loopSkip q = false ∧ deliverPost eff q = .ok ())
    (hp : loopSkip p = false) (hpe : deliverPost eff p = .error e) :
    runCycle eff (.ok (l1 ++ p :: l2)) cursor = ⟨l1, some e, false, cursor⟩ := by
  have hloop := postsLoop_append_fail eff l1 l2 p e h1 hp hpe
  simp [runCycle, hloop]

/-- Effects whose sends always signal a rate limit of 2 seconds. -/
def c2wEff : CycleEff :=
  ⟨fun _ _ _ => .ok (), fun _ _ => .floodWait 2, fun _ _ => .ok ()⟩

/-- Single-image post of the amended C2 witness. -/
def c2wPost : MainPost := ⟨.jstr "w", .jstr "t3_w", .jstr "s", .jstr "t", ["u"]⟩

/-- Witness for the amended C2 statement: a send failing with FloodWait
on all five attempts escapes the cycle and freezes the cursor. -/
theorem cycle_delivery_failure_aborts_witness :
    runCycle c2wEff (.ok [c2wPost]) none = ⟨[], some (.flood 2), false, none⟩ :=
  cycle_delivery_failure_aborts c2wEff none [] [] c2wPost (.flood 2)
    (by simp) rfl rfl
